import Mathlib

/-!
Shallow embedding of the AzureAutoHibernate idle-decision engine and
orchestrator (Go sources: internal/monitor/idle.go, internal/monitor/session.go,
the service monitor loop, and the notifier manager send operations).

Timestamps and durations are modelled as `Int` nanoseconds, mirroring Go's
`time.Time`/`time.Duration` arithmetic (`time.Duration` is an `int64` count of
nanoseconds; `t.Sub(u)` is plain subtraction).  Nullable timestamps
(`*time.Time`) become `Option Int`.  Fallible collaborators
(`GetActiveSessions`, `GetSystemUptime`, `GetSessionIdleTime`) are supplied as
inputs of `Option` type: `none` models the error return.
-/

namespace AutoHibernate

/-- `time.Second` in nanoseconds. -/
def timeSecond : Int := 1000000000

/-- `time.Minute` in nanoseconds. -/
def timeMinute : Int := 60 * timeSecond

/-- `recentActivityThreshold = 30 * time.Second` (idle.go). -/
def recentActivityThreshold : Int := 30 * timeSecond

/-- `notificationThrottleDuration = 30 * time.Second` (service). -/
def notificationThrottleDuration : Int := 30 * timeSecond

/-- `warningCheckInterval = 5 * time.Second` (service). -/
def warningCheckInterval : Int := 5 * timeSecond

/-- `minCheckInterval = 5 * time.Second` (service). -/
def minCheckInterval : Int := 5 * timeSecond

/-- `SessionInfo` (session.go): one enumerated user session. -/
structure SessionInfo where
  SessionId : Nat
  Username : String
  State : Nat
  IsActive : Bool
  IsDisconnected : Bool
deriving DecidableEq, Repr

/-- `IdleCondition` (idle.go): the type of idle condition that triggered. -/
inductive IdleCondition where
  | IdleConditionNone
  | IdleConditionNoUsers
  | IdleConditionAllDisconnected
  | IdleConditionInactiveUser
deriving DecidableEq, Repr

export IdleCondition (IdleConditionNone IdleConditionNoUsers
  IdleConditionAllDisconnected IdleConditionInactiveUser)

/-- `WarningState` (idle.go): the warning FSM state. -/
inductive WarningState where
  | WarningStateNone
  | WarningStateActive
  | WarningStateCanceled
deriving DecidableEq, Repr

export WarningState (WarningStateNone WarningStateActive WarningStateCanceled)

/-- `IdleState` (idle.go). -/
structure IdleState where
  NoUsersIdleSince : Option Int
  AllDisconnectedSince : Option Int
  LastActivityTime : Int
  CurrentSessions : List SessionInfo
  IdleCondition : IdleCondition
  WarningIssuedAt : Option Int
  WarningReason : String
  WarningState : WarningState
deriving DecidableEq, Repr

/-- `IdleMonitor` (idle.go): state plus the configured thresholds. -/
structure IdleMonitor where
  state : IdleState
  noUsersThreshold : Int
  allDisconnectedThreshold : Int
  inactiveUserThreshold : Int
  warningPeriod : Int
  minimumUptimeThreshold : Int
  resumeAt : Int
deriving DecidableEq, Repr

/-- `NewIdleMonitor` (idle.go): thresholds are given in minutes; `now` stands
for the `time.Now()` call inside the constructor. -/
def NewIdleMonitor (noUsersMinutes allDisconnectedMinutes inactiveUserMinutes
    inactiveUserWarningMinutes minimumUptimeMinutes : Int) (now : Int) :
    IdleMonitor where
  state := {
    NoUsersIdleSince := none
    AllDisconnectedSince := none
    LastActivityTime := now
    CurrentSessions := []
    IdleCondition := IdleConditionNone
    WarningIssuedAt := none
    WarningReason := ""
    WarningState := WarningStateNone }
  noUsersThreshold := noUsersMinutes * timeMinute
  allDisconnectedThreshold := allDisconnectedMinutes * timeMinute
  inactiveUserThreshold := inactiveUserMinutes * timeMinute
  warningPeriod := inactiveUserWarningMinutes * timeMinute
  minimumUptimeThreshold := minimumUptimeMinutes * timeMinute
  resumeAt := now

/-- `SetResumeTime` (idle.go). -/
def SetResumeTime (m : IdleMonitor) (t : Int) : IdleMonitor :=
  { m with resumeAt := t }

/-- `CheckResult` (idle.go). -/
structure CheckResult where
  Condition : IdleCondition
  ShouldWarn : Bool
  ShouldHibernate : Bool
  Reason : String
  TimeRemaining : Int
deriving DecidableEq, Repr

/-- Inputs of one `Check` call: the `time.Now()` reading and the three
fallible collaborators (`GetActiveSessions`, `GetSystemUptime`,
`GetSessionIdleTime`), with `none` modelling their error returns. -/
structure CheckEnv where
  now : Int
  sessions : Option (List SessionInfo)
  systemUptime : Option Int
  sessionIdleTime : Nat → Option Int

/-- One session passes the recent-activity test of `shouldCancelWarning`
(idle.go): it is connected, its idle time is readable, and that idle time is
under `recentActivityThreshold`.  A failed `GetSessionIdleTime` is skipped. -/
def sessionRecentlyActive (idleOf : Nat → Option Int) (s : SessionInfo) : Bool :=
  !s.IsDisconnected &&
    match idleOf s.SessionId with
    | none => false
    | some t => decide (t < recentActivityThreshold)

/-- The session loop in case `IdleConditionInactiveUser` of
`shouldCancelWarning` (idle.go): true when any connected session shows
recent input. -/
def anyRecentActivity (sessions : List SessionInfo) (idleOf : Nat → Option Int) :
    Bool :=
  sessions.any (sessionRecentlyActive idleOf)

/-- `shouldCancelWarning` (idle.go). -/
def shouldCancelWarning (m : IdleMonitor) (sessions : List SessionInfo)
    (hasUsers allDisconnected : Bool) (idleOf : Nat → Option Int) : Bool :=
  if m.state.WarningState ≠ WarningStateActive then false
  else
    match m.state.IdleCondition with
    | IdleConditionNoUsers => hasUsers
    | IdleConditionAllDisconnected => !allDisconnected
    | IdleConditionInactiveUser =>
      if hasUsers && !allDisconnected then anyRecentActivity sessions idleOf
      else false
    | IdleConditionNone => false

/-- `resetWarning` (idle.go): warning-reset, clears the warning fields and the
two "since" timers but keeps `LastActivityTime` and `CurrentSessions`. -/
def resetWarning (m : IdleMonitor) : IdleMonitor :=
  { m with state := { m.state with
      IdleCondition := IdleConditionNone
      WarningIssuedAt := none
      WarningReason := ""
      WarningState := WarningStateNone
      NoUsersIdleSince := none
      AllDisconnectedSince := none } }

/-- `Reset` (idle.go): the full reset invoked before hibernation; `now` stands
for the `time.Now()` call that refreshes `LastActivityTime`. -/
def Reset (m : IdleMonitor) (now : Int) : IdleMonitor :=
  { m with state := {
      IdleCondition := IdleConditionNone
      WarningIssuedAt := none
      WarningReason := ""
      WarningState := WarningStateNone
      NoUsersIdleSince := none
      AllDisconnectedSince := none
      LastActivityTime := now
      CurrentSessions := [] } }

/-- The `effectiveUptime` local of `Check` (idle.go): the lesser of system
uptime and time since the last resume event. -/
def effectiveUptimeOf (m : IdleMonitor) (now su : Int) : Int :=
  if now - m.resumeAt < su then now - m.resumeAt else su

/-- The minimum-uptime gate at the top of `Check` (idle.go): `some r` when the
gate suppresses this cycle, `none` when condition checks proceed (threshold
unconfigured, uptime unreadable, or effective uptime above the threshold). -/
def uptimeGate (m : IdleMonitor) (now : Int) (systemUptime : Option Int) :
    Option CheckResult :=
  if 0 < m.minimumUptimeThreshold then
    match systemUptime with
    | none => none
    | some su =>
      if effectiveUptimeOf m now su ≤ m.minimumUptimeThreshold then
        some { Condition := IdleConditionNone, ShouldWarn := false,
               ShouldHibernate := false, Reason := "",
               TimeRemaining := m.minimumUptimeThreshold - effectiveUptimeOf m now su }
      else none
  else none

/-- The FSM cancel step of `Check` (idle.go): on a positive
`shouldCancelWarning`, set `WarningState` to Canceled and apply
`resetWarning` (which then takes it to None and clears the timers). -/
def cancelPhase (m : IdleMonitor) (sessions : List SessionInfo)
    (hasUsers allDisconnected : Bool) (idleOf : Nat → Option Int) : IdleMonitor :=
  if shouldCancelWarning m sessions hasUsers allDisconnected idleOf then
    resetWarning { m with state := { m.state with WarningState := WarningStateCanceled } }
  else m

/-- Accumulator threaded through the three condition evaluators of `Check`:
the monitor, the `idleCondition` local, and the `idleReason` local. -/
structure CondAcc where
  m : IdleMonitor
  cond : IdleCondition
  reason : String
deriving DecidableEq, Repr

/-- The `idleReason` string for the no-users condition (idle.go). -/
def noUsersReason (m : IdleMonitor) : String :=
  "No users logged in for over " ++ toString (m.noUsersThreshold / timeMinute) ++
    " minutes"

/-- The `idleReason` string for the all-disconnected condition (idle.go). -/
def allDisconnectedReason (m : IdleMonitor) : String :=
  "All users disconnected for over " ++
    toString (m.allDisconnectedThreshold / timeMinute) ++ " minutes"

/-- The `idleReason` string for the inactive-user condition (idle.go). -/
def inactiveUserReason (m : IdleMonitor) : String :=
  "No activity detected for over " ++
    toString (m.inactiveUserThreshold / timeMinute) ++ " minutes"

/-- Condition 1 of `Check` (idle.go): no users logged in for the threshold. -/
def noUsersPhase (a : CondAcc) (now : Int) (hasUsers : Bool) : CondAcc :=
  if !hasUsers then
    match a.m.state.NoUsersIdleSince with
    | none =>
      { a with m := { a.m with state := { a.m.state with NoUsersIdleSince := some now } } }
    | some since =>
      let idleDuration := now - since
      if a.m.noUsersThreshold ≤ idleDuration then
        { a with cond := IdleConditionNoUsers, reason := noUsersReason a.m }
      else a
  else
    { a with m := { a.m with state := { a.m.state with NoUsersIdleSince := none } } }

/-- Condition 2 of `Check` (idle.go): all users disconnected for the
threshold; skipped when an earlier condition was met; the timer is cleared
the moment any session is connected. -/
def allDisconnectedPhase (a : CondAcc) (now : Int)
    (hasUsers allDisconnected : Bool) : CondAcc :=
  if a.cond = IdleConditionNone ∧ allDisconnected ∧ hasUsers then
    match a.m.state.AllDisconnectedSince with
    | none =>
      { a with m := { a.m with state := { a.m.state with AllDisconnectedSince := some now } } }
    | some since =>
      let idleDuration := now - since
      if a.m.allDisconnectedThreshold ≤ idleDuration then
        { a with cond := IdleConditionAllDisconnected,
                 reason := allDisconnectedReason a.m }
      else a
  else if !allDisconnected then
    { a with m := { a.m with state := { a.m.state with AllDisconnectedSince := none } } }
  else a

/-- The per-session minimum-idle fold of `Check` condition 3 (idle.go):
disconnected sessions and failed `GetSessionIdleTime` reads are skipped;
`none` when no connected session produced a reading
(`activeSessionCount == 0`). -/
def minIdleOf (sessions : List SessionInfo) (idleOf : Nat → Option Int) :
    Option Int :=
  sessions.foldl
    (fun acc s =>
      if s.IsDisconnected then acc
      else
        match idleOf s.SessionId with
        | none => acc
        | some t =>
          match acc with
          | none => some t
          | some cur => if t < cur then some t else some cur)
    none

/-- Condition 3 of `Check` (idle.go): user logged in but inactive; uses the
minimum idle duration across connected sessions and refreshes
`LastActivityTime` from it. -/
def inactivePhase (a : CondAcc) (now : Int) (idleOf : Nat → Option Int)
    (sessions : List SessionInfo) (hasUsers allDisconnected : Bool) : CondAcc :=
  let hasActiveSessions :=
    hasUsers && !allDisconnected && sessions.any (fun s => !s.IsDisconnected)
  if a.cond = IdleConditionNone ∧ hasActiveSessions then
    match minIdleOf sessions idleOf with
    | none => a
    | some minIdleDuration =>
      let m := { a.m with state :=
        { a.m.state with LastActivityTime := now - minIdleDuration } }
      if a.m.inactiveUserThreshold ≤ minIdleDuration then
        { m := m, cond := IdleConditionInactiveUser,
          reason := inactiveUserReason a.m }
      else { a with m := m }
  else a

/-- The `m.state.IdleCondition = idleCondition` assignment in `Check`
(idle.go) once a condition is met. -/
def markCondition (m : IdleMonitor) (cond : IdleCondition) : IdleMonitor :=
  { m with state := { m.state with IdleCondition := cond } }

/-- The `WarningIssuedAt`/`WarningReason`/`WarningState` assignments of the
FSM None → Active transition in `Check` (idle.go). -/
def startWarning (m : IdleMonitor) (now : Int) (cond : IdleCondition)
    (reason : String) : IdleMonitor :=
  { m with state := { m.state with
      IdleCondition := cond
      WarningIssuedAt := some now
      WarningReason := reason
      WarningState := WarningStateActive } }

/-- The tail of `Check` (idle.go): from the met condition (or none) to the
returned `CheckResult`, running the warning FSM for the inactive-user
condition and hibernating immediately otherwise. -/
def decidePhase (m : IdleMonitor) (now : Int) (cond : IdleCondition)
    (reason : String) : IdleMonitor × CheckResult :=
  if cond = IdleConditionNone then
    ((if m.state.WarningIssuedAt.isSome then resetWarning m else m),
     { Condition := IdleConditionNone, ShouldWarn := false,
       ShouldHibernate := false, Reason := "", TimeRemaining := 0 })
  else if cond = IdleConditionInactiveUser ∧ 0 < m.warningPeriod then
    match m.state.WarningIssuedAt with
    | none =>
      (startWarning m now cond reason,
       { Condition := cond, ShouldWarn := true, ShouldHibernate := false,
         Reason := reason, TimeRemaining := m.warningPeriod })
    | some issuedAt =>
      if m.warningPeriod ≤ now - issuedAt then
        (markCondition m cond,
         { Condition := cond, ShouldWarn := false, ShouldHibernate := true,
           Reason := reason, TimeRemaining := 0 })
      else
        (markCondition m cond,
         { Condition := cond, ShouldWarn := true, ShouldHibernate := false,
           Reason := reason, TimeRemaining := m.warningPeriod - (now - issuedAt) })
  else
    (markCondition m cond,
     { Condition := cond, ShouldWarn := false, ShouldHibernate := true,
       Reason := reason, TimeRemaining := 0 })

/-- Everything in `Check` (idle.go) after the minimum-uptime gate: the session
classification, the cancel step, the three condition evaluators in their
fixed order, and the final decision. -/
def evalConditions (m0 : IdleMonitor) (now : Int) (idleOf : Nat → Option Int)
    (sessions : List SessionInfo) : IdleMonitor × CheckResult :=
  let hasUsers := !sessions.isEmpty
  let allDisconnected := sessions.all (fun s => s.IsDisconnected)
  let m1 := cancelPhase m0 sessions hasUsers allDisconnected idleOf
  let a1 := noUsersPhase { m := m1, cond := IdleConditionNone, reason := "" } now hasUsers
  let a2 := allDisconnectedPhase a1 now hasUsers allDisconnected
  let a3 := inactivePhase a2 now idleOf sessions hasUsers allDisconnected
  decidePhase a3.m now a3.cond a3.reason

/-- The `m.state.CurrentSessions = sessions` assignment at the top of `Check`. -/
def withSessions (m : IdleMonitor) (sessions : List SessionInfo) : IdleMonitor :=
  { m with state := { m.state with CurrentSessions := sessions } }

/-- `Check` (idle.go): `none` models the error return when
`GetActiveSessions` fails (the monitor is left as it was). -/
def Check (m : IdleMonitor) (env : CheckEnv) :
    Option (IdleMonitor × CheckResult) :=
  match env.sessions with
  | none => none
  | some sessions =>
    let m1 := withSessions m sessions
    match uptimeGate m1 env.now env.systemUptime with
    | some r => some (m1, r)
    | none => some (evalConditions m1 env.now env.sessionIdleTime sessions)

/-- Go's clamp idiom `if timeUntil < 0 { timeUntil = 0 }` in
`GetTimeUntilThresholds` (idle.go). -/
def clampZero (t : Int) : Int :=
  if t < 0 then 0 else t

/-- The running-minimum update of `GetTimeUntilThresholds` (idle.go):
`if !hasActiveCondition || timeUntil < minTimeUntil`. -/
def updateMin (acc : Option Int) (t : Int) : Option Int :=
  match acc with
  | none => some t
  | some cur => if t < cur then some t else some cur

/-- The `minTimeUntil`/`hasActiveCondition` accumulation of
`GetTimeUntilThresholds` (idle.go), over the three conditions in order;
`none` models `hasActiveCondition = false`. -/
def thresholdsAcc (m : IdleMonitor) (now : Int)
    (idleOf : Nat → Option Int) : Option Int :=
  let acc : Option Int := none
  let acc :=
    if 0 < m.noUsersThreshold then
      match m.state.NoUsersIdleSince with
      | some since => updateMin acc (clampZero (m.noUsersThreshold - (now - since)))
      | none => acc
    else acc
  let acc :=
    if 0 < m.allDisconnectedThreshold then
      match m.state.AllDisconnectedSince with
      | some since =>
        updateMin acc (clampZero (m.allDisconnectedThreshold - (now - since)))
      | none => acc
    else acc
  let acc :=
    if 0 < m.inactiveUserThreshold ∧ 0 < m.state.CurrentSessions.length ∧
        m.state.CurrentSessions.any (fun s => !s.IsDisconnected) then
      match minIdleOf m.state.CurrentSessions idleOf with
      | some minSessionIdle =>
        updateMin acc (clampZero (m.inactiveUserThreshold - minSessionIdle))
      | none => acc
    else acc
  acc

/-- `GetTimeUntilThresholds` (idle.go): the minimum time remaining until any
enabled condition's threshold, 0 when no condition timer is running.  The Go
method's error return is always nil, so the embedding is total. -/
def GetTimeUntilThresholds (m : IdleMonitor) (now : Int)
    (idleOf : Nat → Option Int) : Int :=
  match thresholdsAcc m now idleOf with
  | none => 0
  | some v => clampZero v

/-- `Config` (config.go): the five minute-count fields the engine and
scheduler consume. -/
structure Config where
  NoUsersIdleMinutes : Int
  AllDisconnectedIdleMinutes : Int
  InactiveUserIdleMinutes : Int
  InactiveUserWarningMinutes : Int
  MinimumUptimeMinutes : Int
deriving DecidableEq, Repr

/-- The `minThreshold` chain of `calculateNextCheckTime` (service): the
smallest configured nonzero idle threshold, in minutes, computed by the
successive-comparison idiom of the Go code. -/
def minConfiguredThreshold (cfg : Config) : Int :=
  let minThreshold := cfg.NoUsersIdleMinutes
  let minThreshold :=
    if 0 < cfg.AllDisconnectedIdleMinutes ∧
        (minThreshold = 0 ∨ cfg.AllDisconnectedIdleMinutes < minThreshold) then
      cfg.AllDisconnectedIdleMinutes
    else minThreshold
  if 0 < cfg.InactiveUserIdleMinutes ∧
      (minThreshold = 0 ∨ cfg.InactiveUserIdleMinutes < minThreshold) then
    cfg.InactiveUserIdleMinutes
  else minThreshold

/-- The `defaultCheckInterval` local of `calculateNextCheckTime` (service):
the smallest nonzero threshold as a duration, or 5 minutes when every
threshold is zero. -/
def defaultCheckIntervalOf (cfg : Config) : Int :=
  if 0 < minConfiguredThreshold cfg then minConfiguredThreshold cfg * timeMinute
  else 5 * timeMinute

/-- `calculateNextCheckTime` (service): the dynamically computed wait until
the next monitor cycle.  The Go error branch after `GetTimeUntilThresholds`
is unreachable (the method never returns an error) and has no counterpart. -/
def calculateNextCheckTime (cfg : Config) (m : IdleMonitor) (now : Int)
    (idleOf : Nat → Option Int) (inWarningMode : Bool) : Int :=
  if inWarningMode then warningCheckInterval
  else
    let timeUntil := GetTimeUntilThresholds m now idleOf
    if timeUntil ≤ 0 then defaultCheckIntervalOf cfg
    else if timeUntil < minCheckInterval then minCheckInterval
    else timeUntil

/-- The orchestrator state that `checkAndHibernate` (service) reads and
writes: the engine and the warning-notification throttle timestamp, with
`none` modelling the zero `time.Time`. -/
structure ServiceState where
  idleMonitor : IdleMonitor
  lastNotificationTime : Option Int
deriving DecidableEq, Repr

/-- The observable outcome of one `checkAndHibernate` call (service): the
updated state, the two returned booleans, and whether
`NotifierManager.SendWarning` was invoked this cycle. -/
structure CycleOutcome where
  svc : ServiceState
  shouldWarn : Bool
  isHibernating : Bool
  warningSent : Bool
deriving DecidableEq, Repr

/-- `checkAndHibernate` (service): one evaluation cycle.  `hasNotifier`
models `s.notifierManager != nil`, `sendWarningOk` the success of
`SendWarning`, `hibernateOk` the success of the Azure hibernate call; the
engine `Check` runs on `env` and `env.now` stands for every `time.Now()`
reading of the cycle. -/
def checkAndHibernate (s : ServiceState) (env : CheckEnv)
    (hasNotifier sendWarningOk hibernateOk : Bool) : CycleOutcome :=
  match Check s.idleMonitor env with
  | none => ⟨s, false, false, false⟩
  | some (m1, result) =>
    let s1 : ServiceState := { s with idleMonitor := m1 }
    if result.ShouldWarn then
      let throttlePassed :=
        match s1.lastNotificationTime with
        | none => true
        | some t => notificationThrottleDuration ≤ env.now - t
      if throttlePassed then
        if hasNotifier then
          if sendWarningOk then
            ⟨{ s1 with lastNotificationTime := some env.now }, true, false, true⟩
          else ⟨s1, true, false, true⟩
        else ⟨s1, true, false, false⟩
      else ⟨s1, true, false, false⟩
    else if result.ShouldHibernate then
      let s2 : ServiceState := { s1 with idleMonitor := Reset s1.idleMonitor env.now }
      if hibernateOk then ⟨s2, false, true, false⟩
      else ⟨s2, false, false, false⟩
    else ⟨s1, false, false, false⟩

/-- `NotifierProcess` (notifier manager), reduced to the fields the send
operations read: the session id and the cached connection flag. -/
structure NotifierRecord where
  SessionID : Int
  IsConnected : Bool
deriving DecidableEq, Repr

/-- The delivery loop of `SendWarning` (notifier manager): the sessions a
warning command is sent to — every registered record that is connected;
nothing when the registry is empty. -/
def SendWarningTargets (notifiers : List NotifierRecord) : List Int :=
  if notifiers.isEmpty then []
  else (notifiers.filter (fun n => n.IsConnected)).map (fun n => n.SessionID)

/-- The delivery loop of `SendCancellation` (notifier manager): identical
connected-only filtering. -/
def SendCancellationTargets (notifiers : List NotifierRecord) : List Int :=
  if notifiers.isEmpty then []
  else (notifiers.filter (fun n => n.IsConnected)).map (fun n => n.SessionID)

/-- The delivery loop of `SendInfo` (notifier manager): identical
connected-only filtering. -/
def SendInfoTargets (notifiers : List NotifierRecord) : List Int :=
  if notifiers.isEmpty then []
  else (notifiers.filter (fun n => n.IsConnected)).map (fun n => n.SessionID)

/-- The delivery loop of `DismissWarning` (notifier manager): the dismiss
command goes to every registered record, with no connection-state filter. -/
def DismissWarningTargets (notifiers : List NotifierRecord) : List Int :=
  if notifiers.isEmpty then []
  else notifiers.map (fun n => n.SessionID)

/-! ### Shared helper lemmas -/

theorem clampZero_nonneg (t : Int) : 0 ≤ clampZero t := by
  unfold clampZero; split <;> omega

theorem uptimeGate_flags (m : IdleMonitor) (now : Int) (su : Option Int)
    (r : CheckResult) (h : uptimeGate m now su = some r) :
    r.ShouldWarn = false ∧ r.ShouldHibernate = false ∧
      r.Condition = IdleConditionNone := by
  unfold uptimeGate at h
  split at h
  · cases su with
    | none => simp at h
    | some u =>
      simp only at h
      split at h
      · injection h with h
        subst h
        exact ⟨rfl, rfl, rfl⟩
      · simp at h
  · simp at h

theorem decidePhase_flags (m : IdleMonitor) (now : Int) (cond : IdleCondition)
    (reason : String) :
    ((decidePhase m now cond reason).2.ShouldWarn = true →
      (decidePhase m now cond reason).2.ShouldHibernate = false ∧
      (decidePhase m now cond reason).2.Condition = IdleConditionInactiveUser ∧
      0 < (decidePhase m now cond reason).2.TimeRemaining) ∧
    ((decidePhase m now cond reason).2.ShouldHibernate = true →
      (decidePhase m now cond reason).2.ShouldWarn = false) := by
  unfold decidePhase
  split
  · simp
  · split
    · rename_i hcond hwp
      split
      · exact ⟨fun _ => ⟨rfl, hwp.1, hwp.2⟩, fun h => by simp at h⟩
      · split
        · exact ⟨fun h => by simp at h, fun _ => rfl⟩
        · refine ⟨fun _ => ⟨rfl, hwp.1, ?_⟩, fun h => by simp at h⟩
          dsimp only
          omega
    · exact ⟨fun h => by simp at h, fun _ => rfl⟩

theorem check_flags (m : IdleMonitor) (env : CheckEnv) (m1 : IdleMonitor)
    (r : CheckResult) (h : Check m env = some (m1, r)) :
    (r.ShouldWarn = true →
      r.ShouldHibernate = false ∧ r.Condition = IdleConditionInactiveUser ∧
      0 < r.TimeRemaining) ∧
    (r.ShouldHibernate = true → r.ShouldWarn = false) := by
  unfold Check at h
  cases hs : env.sessions with
  | none => rw [hs] at h; simp at h
  | some sessions =>
    rw [hs] at h
    simp only at h
    cases hg : uptimeGate (withSessions m sessions) env.now env.systemUptime with
    | some g =>
      rw [hg] at h
      simp only [Option.some.injEq, Prod.mk.injEq] at h
      obtain ⟨-, hr⟩ := h
      subst hr
      obtain ⟨h1, h2, -⟩ := uptimeGate_flags _ _ _ _ hg
      constructor
      · intro hw; rw [h1] at hw; cases hw
      · intro hh; rw [h2] at hh; cases hh
    | none =>
      rw [hg] at h
      simp only [Option.some.injEq] at h
      have hr : r = (evalConditions (withSessions m sessions) env.now
          env.sessionIdleTime sessions).2 := by rw [h]
      rw [hr]
      unfold evalConditions
      exact decidePhase_flags _ _ _ _

/-! ### Projection lemmas for `withSessions` -/

@[simp] theorem withSessions_minimumUptimeThreshold (m : IdleMonitor)
    (s : List SessionInfo) :
    (withSessions m s).minimumUptimeThreshold = m.minimumUptimeThreshold := rfl

@[simp] theorem withSessions_resumeAt (m : IdleMonitor) (s : List SessionInfo) :
    (withSessions m s).resumeAt = m.resumeAt := rfl

@[simp] theorem withSessions_noUsersThreshold (m : IdleMonitor)
    (s : List SessionInfo) :
    (withSessions m s).noUsersThreshold = m.noUsersThreshold := rfl

@[simp] theorem withSessions_allDisconnectedThreshold (m : IdleMonitor)
    (s : List SessionInfo) :
    (withSessions m s).allDisconnectedThreshold = m.allDisconnectedThreshold := rfl

@[simp] theorem withSessions_inactiveUserThreshold (m : IdleMonitor)
    (s : List SessionInfo) :
    (withSessions m s).inactiveUserThreshold = m.inactiveUserThreshold := rfl

@[simp] theorem withSessions_warningPeriod (m : IdleMonitor)
    (s : List SessionInfo) :
    (withSessions m s).warningPeriod = m.warningPeriod := rfl

@[simp] theorem withSessions_NoUsersIdleSince (m : IdleMonitor)
    (s : List SessionInfo) :
    (withSessions m s).state.NoUsersIdleSince = m.state.NoUsersIdleSince := rfl

@[simp] theorem withSessions_AllDisconnectedSince (m : IdleMonitor)
    (s : List SessionInfo) :
    (withSessions m s).state.AllDisconnectedSince =
      m.state.AllDisconnectedSince := rfl

@[simp] theorem withSessions_LastActivityTime (m : IdleMonitor)
    (s : List SessionInfo) :
    (withSessions m s).state.LastActivityTime = m.state.LastActivityTime := rfl

@[simp] theorem withSessions_IdleCondition (m : IdleMonitor)
    (s : List SessionInfo) :
    (withSessions m s).state.IdleCondition = m.state.IdleCondition := rfl

@[simp] theorem withSessions_WarningIssuedAt (m : IdleMonitor)
    (s : List SessionInfo) :
    (withSessions m s).state.WarningIssuedAt = m.state.WarningIssuedAt := rfl

@[simp] theorem withSessions_WarningState (m : IdleMonitor)
    (s : List SessionInfo) :
    (withSessions m s).state.WarningState = m.state.WarningState := rfl

@[simp] theorem withSessions_CurrentSessions (m : IdleMonitor)
    (s : List SessionInfo) :
    (withSessions m s).state.CurrentSessions = s := rfl

/-! ### Concrete instances used by counterexamples and witnesses -/

/-- A monitor configured with a 15-minute no-users threshold only. -/
def noUsersBaseline : IdleMonitor := NewIdleMonitor 15 0 0 0 0 0

/-- The same monitor with its no-users timer started at time 0. -/
def noUsersTicking : IdleMonitor :=
  { noUsersBaseline with state :=
      { noUsersBaseline.state with NoUsersIdleSince := some 0 } }

/-- A cycle input at time `t` with an empty session snapshot. -/
def emptySnapshotAt (t : Int) : CheckEnv := ⟨t, some [], none, fun _ => none⟩

/-- A cycle input at time `t` with an empty snapshot and system uptime `t`
(machine booted at time 0). -/
def emptySnapshotWithUptime (t : Int) : CheckEnv :=
  ⟨t, some [], some t, fun _ => none⟩

/-- Service state holding `noUsersTicking`, no notification sent yet. -/
def svcAtThreshold : ServiceState := ⟨noUsersTicking, none⟩

/-- The engine output at the moment the no-users condition is met. -/
def hibPair : IdleMonitor × CheckResult :=
  (Check noUsersTicking (emptySnapshotAt (15 * timeMinute))).getD
    (noUsersTicking, ⟨IdleConditionNone, false, false, "", 0⟩)

/-- The cycle outcome when the hibernate call fails at that moment. -/
def failedHibernateOutcome : CycleOutcome :=
  checkAndHibernate svcAtThreshold (emptySnapshotAt (15 * timeMinute)) true true false

/-! ### C7 -/

/-- C7: the full reset is idempotent — applying `Reset` to an already-reset
monitor yields the same state, both for back-to-back calls sharing one clock
reading and for calls at distinct times (the second call alone determines
the result). -/
theorem reset_idempotent : ∀ (m : IdleMonitor) (t1 t2 t : Int),
    Reset (Reset m t1) t2 = Reset m t2 ∧ Reset (Reset m t) t = Reset m t := by
  intro m t1 t2 t
  exact ⟨rfl, rfl⟩

/-! ### C8 -/

/-- A registry holding a single disconnected session. -/
def disconnectedOnlyRegistry : List NotifierRecord := [⟨7, false⟩]

/-- A registry holding one connected and one disconnected session. -/
def mixedRegistry : List NotifierRecord := [⟨3, true⟩, ⟨7, false⟩]

/-- C8 counterexample: `DismissWarning` does send its command to a session
whose relay record is marked disconnected, so not all four operations
deliver only to connected sessions. -/
theorem dismiss_sends_to_disconnected :
    (7 : Int) ∈ DismissWarningTargets disconnectedOnlyRegistry ∧
      ∃ r ∈ disconnectedOnlyRegistry, r.SessionID = 7 ∧ r.IsConnected = false := by
  decide

theorem connectedTargets_sound (notifiers : List NotifierRecord) (i : Int)
    (h : i ∈ (if notifiers.isEmpty then ([] : List Int)
        else (notifiers.filter (fun n => n.IsConnected)).map
          (fun n => n.SessionID))) :
    ∃ r ∈ notifiers, r.SessionID = i ∧ r.IsConnected = true := by
  split at h
  · simp at h
  · simp only [List.mem_map, List.mem_filter] at h
    obtain ⟨r, ⟨hr, hc⟩, hi⟩ := h
    exact ⟨r, hr, hi, hc⟩

/-- C8 (amended): `SendWarning`, `SendCancellation`, and `SendInfo` deliver
only to sessions whose relay record is connected, while `DismissWarning`
delivers to every registered session, connected or not. -/
theorem notify_targets_connected_except_dismiss :
    ∀ (notifiers : List NotifierRecord) (i : Int),
      (i ∈ SendWarningTargets notifiers →
        ∃ r ∈ notifiers, r.SessionID = i ∧ r.IsConnected = true) ∧
      (i ∈ SendCancellationTargets notifiers →
        ∃ r ∈ notifiers, r.SessionID = i ∧ r.IsConnected = true) ∧
      (i ∈ SendInfoTargets notifiers →
        ∃ r ∈ notifiers, r.SessionID = i ∧ r.IsConnected = true) ∧
      (i ∈ DismissWarningTargets notifiers ↔ ∃ r ∈ notifiers, r.SessionID = i) := by
  intro notifiers i
  refine ⟨connectedTargets_sound notifiers i, connectedTargets_sound notifiers i,
    connectedTargets_sound notifiers i, ?_⟩
  unfold DismissWarningTargets
  split
  · rename_i he
    rw [List.isEmpty_iff] at he
    subst he
    simp
  · simp [List.mem_map]

/-- C8 witness: at the mixed registry, session 3 is a warning target and is
indeed backed by a connected record. -/
theorem notify_targets_witness :
    ((3 : Int) ∈ SendWarningTargets mixedRegistry) ∧
      (∃ r ∈ mixedRegistry, r.SessionID = 3 ∧ r.IsConnected = true) :=
  ⟨by decide, (notify_targets_connected_except_dismiss mixedRegistry 3).1 (by decide)⟩

/-! ### C1 -/

/-- C1 counterexample: with the no-users condition met (timer at `some 0`,
`ShouldHibernate = true`) and the hibernate call failing, the engine's
no-users timer does not keep its value — it is cleared to `none` by the
`Reset` invoked before the hibernate attempt — and the next cycle does not
re-attempt hibernation. -/
theorem hibernate_failure_clears_state :
    (Check noUsersTicking (emptySnapshotAt (15 * timeMinute))).map
        (fun p => (p.2.ShouldHibernate, p.1.state.NoUsersIdleSince)) =
      some (true, some 0) ∧
    failedHibernateOutcome.isHibernating = false ∧
    failedHibernateOutcome.svc.idleMonitor.state.NoUsersIdleSince = none ∧
    (Check failedHibernateOutcome.svc.idleMonitor
        (emptySnapshotAt (15 * timeMinute + 5 * timeSecond))).map
        (fun p => p.2.ShouldHibernate) = some false := by
  decide

/-- C1 (amended): when the engine reports `ShouldHibernate = true`, the
orchestrator resets the engine *before* invoking the hibernate action, so
after a failed hibernate call the state is the fully reset one — every idle
timer, the warning state, and the last-activity timestamp are cleared, and
the cycle reports neither warning nor hibernation. -/
theorem hibernate_failure_engine_reset :
    ∀ (s : ServiceState) (env : CheckEnv) (hasNotifier sendOk : Bool)
      (m1 : IdleMonitor) (r : CheckResult),
      Check s.idleMonitor env = some (m1, r) → r.ShouldHibernate = true →
      checkAndHibernate s env hasNotifier sendOk false =
        ⟨⟨Reset m1 env.now, s.lastNotificationTime⟩, false, false, false⟩ ∧
      (Reset m1 env.now).state.NoUsersIdleSince = none ∧
      (Reset m1 env.now).state.AllDisconnectedSince = none ∧
      (Reset m1 env.now).state.WarningIssuedAt = none ∧
      (Reset m1 env.now).state.WarningState = WarningStateNone ∧
      (Reset m1 env.now).state.LastActivityTime = env.now := by
  intro s env hasNotifier sendOk m1 r hchk hhib
  have hw : r.ShouldWarn = false := (check_flags _ _ _ _ hchk).2 hhib
  unfold checkAndHibernate
  rw [hchk]
  simp [hw, hhib, Reset]

/-- C1 witness for the amended theorem, at the concrete no-users scenario. -/
theorem hibernate_failure_engine_reset_witness :
    (Check svcAtThreshold.idleMonitor (emptySnapshotAt (15 * timeMinute)) =
        some (hibPair.1, hibPair.2) ∧ hibPair.2.ShouldHibernate = true) ∧
      (checkAndHibernate svcAtThreshold (emptySnapshotAt (15 * timeMinute))
          true true false =
        ⟨⟨Reset hibPair.1 (emptySnapshotAt (15 * timeMinute)).now,
          svcAtThreshold.lastNotificationTime⟩, false, false, false⟩ ∧
      (Reset hibPair.1 (emptySnapshotAt (15 * timeMinute)).now).state.NoUsersIdleSince = none ∧
      (Reset hibPair.1 (emptySnapshotAt (15 * timeMinute)).now).state.AllDisconnectedSince = none ∧
      (Reset hibPair.1 (emptySnapshotAt (15 * timeMinute)).now).state.WarningIssuedAt = none ∧
      (Reset hibPair.1 (emptySnapshotAt (15 * timeMinute)).now).state.WarningState = WarningStateNone ∧
      (Reset hibPair.1 (emptySnapshotAt (15 * timeMinute)).now).state.LastActivityTime =
        (emptySnapshotAt (15 * timeMinute)).now) :=
  ⟨⟨by decide, by decide⟩,
    hibernate_failure_engine_reset svcAtThreshold (emptySnapshotAt (15 * timeMinute))
      true true hibPair.1 hibPair.2 (by decide) (by decide)⟩

/-! ### C3 -/

theorem effectiveUptimeOf_eq_min (m : IdleMonitor) (now su : Int) :
    effectiveUptimeOf m now su = min su (now - m.resumeAt) := by
  unfold effectiveUptimeOf
  split <;> omega

theorem uptimeGate_configured (m : IdleMonitor) (now su : Int)
    (hthr : 0 < m.minimumUptimeThreshold) :
    uptimeGate m now (some su) =
      if effectiveUptimeOf m now su ≤ m.minimumUptimeThreshold then
        some ⟨IdleConditionNone, false, false, "",
          m.minimumUptimeThreshold - effectiveUptimeOf m now su⟩
      else none := by
  unfold uptimeGate
  rw [if_pos hthr]

/-- C3: with a positive minimum-uptime threshold and a readable system
uptime, the engine's effective uptime is the minimum of time since boot and
time since the last resume; while effective uptime ≤ threshold (equality
included) `Check` suppresses all condition checks and returns condition
None, no warn, no hibernate, time-remaining = threshold − effective uptime,
leaving the monitor untouched except for the stored snapshot; as soon as
effective uptime exceeds the threshold, `Check` is exactly the condition
evaluation. -/
theorem minimum_uptime_gate :
    ∀ (m : IdleMonitor) (env : CheckEnv) (sessions : List SessionInfo) (su : Int),
      0 < m.minimumUptimeThreshold →
      env.sessions = some sessions →
      env.systemUptime = some su →
      (min su (env.now - m.resumeAt) ≤ m.minimumUptimeThreshold →
        Check m env = some (withSessions m sessions,
          ⟨IdleConditionNone, false, false, "",
            m.minimumUptimeThreshold - min su (env.now - m.resumeAt)⟩)) ∧
      (m.minimumUptimeThreshold < min su (env.now - m.resumeAt) →
        Check m env = some (evalConditions (withSessions m sessions) env.now
          env.sessionIdleTime sessions)) := by
  intro m env sessions su hthr hsess hsu
  have hthr1 : 0 < (withSessions m sessions).minimumUptimeThreshold := by
    simpa using hthr
  have hgate := uptimeGate_configured (withSessions m sessions) env.now su hthr1
  rw [effectiveUptimeOf_eq_min] at hgate
  simp only [withSessions_minimumUptimeThreshold, withSessions_resumeAt] at hgate
  constructor
  · intro hle
    unfold Check
    rw [hsess]
    simp only
    rw [hsu, hgate, if_pos hle]
  · intro hgt
    unfold Check
    rw [hsess]
    simp only
    rw [hsu, hgate, if_neg (by omega)]

/-- A monitor with a 10-minute minimum-uptime threshold (and a 15-minute
no-users threshold), fresh at time 0. -/
def uptimeGatedMonitor : IdleMonitor := NewIdleMonitor 15 0 0 0 10 0

/-- C3 witness: at exactly 10 minutes of effective uptime the gate still
suppresses (boundary inclusive) and reports zero time remaining. -/
theorem minimum_uptime_gate_witness :
    (0 < uptimeGatedMonitor.minimumUptimeThreshold ∧
      (emptySnapshotWithUptime (10 * timeMinute)).sessions = some [] ∧
      (emptySnapshotWithUptime (10 * timeMinute)).systemUptime =
        some (10 * timeMinute)) ∧
    ((min (10 * timeMinute)
        ((emptySnapshotWithUptime (10 * timeMinute)).now -
          uptimeGatedMonitor.resumeAt) ≤
          uptimeGatedMonitor.minimumUptimeThreshold →
      Check uptimeGatedMonitor (emptySnapshotWithUptime (10 * timeMinute)) =
        some (withSessions uptimeGatedMonitor [],
          ⟨IdleConditionNone, false, false, "",
            uptimeGatedMonitor.minimumUptimeThreshold -
              min (10 * timeMinute)
                ((emptySnapshotWithUptime (10 * timeMinute)).now -
                  uptimeGatedMonitor.resumeAt)⟩)) ∧
      (uptimeGatedMonitor.minimumUptimeThreshold <
          min (10 * timeMinute)
            ((emptySnapshotWithUptime (10 * timeMinute)).now -
              uptimeGatedMonitor.resumeAt) →
        Check uptimeGatedMonitor (emptySnapshotWithUptime (10 * timeMinute)) =
          some (evalConditions (withSessions uptimeGatedMonitor [])
            (emptySnapshotWithUptime (10 * timeMinute)).now
            (emptySnapshotWithUptime (10 * timeMinute)).sessionIdleTime []))) :=
  ⟨⟨by decide, rfl, rfl⟩,
    minimum_uptime_gate uptimeGatedMonitor
      (emptySnapshotWithUptime (10 * timeMinute)) [] (10 * timeMinute)
      (by decide) rfl rfl⟩

/-! ### C9 -/

theorem GetTimeUntilThresholds_nonneg (m : IdleMonitor) (now : Int)
    (idleOf : Nat → Option Int) : 0 ≤ GetTimeUntilThresholds m now idleOf := by
  unfold GetTimeUntilThresholds
  split
  · omega
  · exact clampZero_nonneg _

theorem minConfiguredThreshold_spec (cfg : Config)
    (ha : 0 ≤ cfg.NoUsersIdleMinutes) (hb : 0 ≤ cfg.AllDisconnectedIdleMinutes)
    (hc : 0 ≤ cfg.InactiveUserIdleMinutes) :
    0 ≤ minConfiguredThreshold cfg ∧
    (minConfiguredThreshold cfg = 0 ↔
      cfg.NoUsersIdleMinutes = 0 ∧ cfg.AllDisconnectedIdleMinutes = 0 ∧
        cfg.InactiveUserIdleMinutes = 0) ∧
    (0 < minConfiguredThreshold cfg →
      (minConfiguredThreshold cfg = cfg.NoUsersIdleMinutes ∨
        minConfiguredThreshold cfg = cfg.AllDisconnectedIdleMinutes ∨
        minConfiguredThreshold cfg = cfg.InactiveUserIdleMinutes) ∧
      (0 < cfg.NoUsersIdleMinutes →
        minConfiguredThreshold cfg ≤ cfg.NoUsersIdleMinutes) ∧
      (0 < cfg.AllDisconnectedIdleMinutes →
        minConfiguredThreshold cfg ≤ cfg.AllDisconnectedIdleMinutes) ∧
      (0 < cfg.InactiveUserIdleMinutes →
        minConfiguredThreshold cfg ≤ cfg.InactiveUserIdleMinutes)) := by
  unfold minConfiguredThreshold
  dsimp only
  split_ifs <;> omega

/-- C9: the next wait interval is the fast 5-second interval whenever warning
mode is on; otherwise, writing `t` for the engine's (always nonnegative)
`GetTimeUntilThresholds` value: if `t > 0` the interval is `t` clamped below
at the 5-second floor; if `t = 0` it falls back to the smallest configured
nonzero idle threshold in minutes, or to a 5-minute default when all three
thresholds are zero. -/
theorem next_check_interval :
    ∀ (cfg : Config) (m : IdleMonitor) (now : Int) (idleOf : Nat → Option Int)
      (inWarningMode : Bool),
      0 ≤ cfg.NoUsersIdleMinutes → 0 ≤ cfg.AllDisconnectedIdleMinutes →
      0 ≤ cfg.InactiveUserIdleMinutes →
      (inWarningMode = true →
        calculateNextCheckTime cfg m now idleOf inWarningMode =
          warningCheckInterval) ∧
      (inWarningMode = false →
        0 ≤ GetTimeUntilThresholds m now idleOf ∧
        (0 < GetTimeUntilThresholds m now idleOf →
          calculateNextCheckTime cfg m now idleOf inWarningMode =
            max minCheckInterval (GetTimeUntilThresholds m now idleOf)) ∧
        (GetTimeUntilThresholds m now idleOf = 0 →
          ((cfg.NoUsersIdleMinutes = 0 ∧ cfg.AllDisconnectedIdleMinutes = 0 ∧
              cfg.InactiveUserIdleMinutes = 0) →
            calculateNextCheckTime cfg m now idleOf inWarningMode =
              5 * timeMinute) ∧
          (¬(cfg.NoUsersIdleMinutes = 0 ∧ cfg.AllDisconnectedIdleMinutes = 0 ∧
              cfg.InactiveUserIdleMinutes = 0) →
            ∃ v, calculateNextCheckTime cfg m now idleOf inWarningMode =
                v * timeMinute ∧ 0 < v ∧
              (v = cfg.NoUsersIdleMinutes ∨
                v = cfg.AllDisconnectedIdleMinutes ∨
                v = cfg.InactiveUserIdleMinutes) ∧
              (0 < cfg.NoUsersIdleMinutes → v ≤ cfg.NoUsersIdleMinutes) ∧
              (0 < cfg.AllDisconnectedIdleMinutes →
                v ≤ cfg.AllDisconnectedIdleMinutes) ∧
              (0 < cfg.InactiveUserIdleMinutes →
                v ≤ cfg.InactiveUserIdleMinutes)))) := by
  intro cfg m now idleOf inWarningMode ha hb hc
  have hnn := GetTimeUntilThresholds_nonneg m now idleOf
  obtain ⟨hm0, hmz, hmpos⟩ := minConfiguredThreshold_spec cfg ha hb hc
  constructor
  · intro hmode
    subst hmode
    simp [calculateNextCheckTime]
  · intro hmode
    subst hmode
    simp only [calculateNextCheckTime, Bool.false_eq_true, if_false]
    refine ⟨hnn, ?_, ?_⟩
    · intro hpos
      rw [if_neg (by omega)]
      split <;> omega
    · intro hz
      rw [if_pos (by omega)]
      constructor
      · intro hall
        unfold defaultCheckIntervalOf
        have h0 := hmz.mpr hall
        rw [if_neg (by omega)]
      · intro hnall
        have hpos : 0 < minConfiguredThreshold cfg := by
          rcases lt_or_eq_of_le hm0 with h | h
          · exact h
          · exact absurd (hmz.mp h.symm) hnall
        unfold defaultCheckIntervalOf
        rw [if_pos hpos]
        obtain ⟨hone, hua, hub, huc⟩ := hmpos hpos
        exact ⟨minConfiguredThreshold cfg, rfl, hpos, hone, hua, hub, huc⟩

/-- The configuration used by the scheduling witness. -/
def schedCfg : Config := ⟨15, 0, 30, 5, 0⟩

/-- C9 witness: at a running no-users timer 7 minutes in, the next interval
is the clamped time-until-threshold. -/
theorem next_check_interval_witness :
    ((0 : Int) ≤ schedCfg.NoUsersIdleMinutes ∧
      (0 : Int) ≤ schedCfg.AllDisconnectedIdleMinutes ∧
      (0 : Int) ≤ schedCfg.InactiveUserIdleMinutes ∧
      0 < GetTimeUntilThresholds noUsersTicking (7 * timeMinute) (fun _ => none)) ∧
    calculateNextCheckTime schedCfg noUsersTicking (7 * timeMinute)
        (fun _ => none) false =
      max minCheckInterval
        (GetTimeUntilThresholds noUsersTicking (7 * timeMinute) (fun _ => none)) :=
  ⟨⟨by decide, by decide, by decide, by decide⟩,
    (((next_check_interval schedCfg noUsersTicking (7 * timeMinute)
      (fun _ => none) false (by decide) (by decide) (by decide)).2 rfl).2.1
        (by decide))⟩

/-! ### C5 -/

/-- A connected interactive session. -/
def sessAlice : SessionInfo := ⟨2, "alice", 0, true, false⟩

/-- A cycle input at time `t` where the one connected session has been idle
for 2 minutes (no recent activity, inactive condition holds). -/
def warnEnvAt (t : Int) : CheckEnv :=
  ⟨t, some [sessAlice], none, fun _ => some (2 * timeMinute)⟩

/-- A monitor with a 1-minute inactive-user threshold and a 60-minute
warning period: every cycle of the scenario reports `ShouldWarn`. -/
def throttleMonitor : IdleMonitor := NewIdleMonitor 0 0 1 60 0 0

/-- Scenario cycle 1 at t = 0. -/
def throttleCycle0 : CycleOutcome :=
  checkAndHibernate ⟨throttleMonitor, none⟩ (warnEnvAt 0) true true true

/-- Scenario cycle 2, 5 seconds after the first. -/
def throttleCycle1 : CycleOutcome :=
  checkAndHibernate throttleCycle0.svc (warnEnvAt (5 * timeSecond)) true true true

/-- Scenario cycle 3, 31 seconds after the first. -/
def throttleCycle2 : CycleOutcome :=
  checkAndHibernate throttleCycle1.svc (warnEnvAt (31 * timeSecond)) true true true

/-- The engine output feeding scenario cycle 2. -/
def throttlePair1 : IdleMonitor × CheckResult :=
  (Check throttleCycle0.svc.idleMonitor (warnEnvAt (5 * timeSecond))).getD
    (throttleMonitor, ⟨IdleConditionNone, false, false, "", 0⟩)

/-- C5: (general) with a notifier present, a `ShouldWarn` cycle invokes
`SendWarning` exactly when no notification has been sent yet or the last
successful send was at least `notificationThrottleDuration` (30 s) earlier;
a cycle inside the window is skipped.  (scenario) two consecutive warn
cycles 5 s apart produce exactly one send, and a third cycle 31 s after the
first produces a second send. -/
theorem warning_send_throttle :
    (∀ (s : ServiceState) (env : CheckEnv) (sendOk hibOk : Bool)
        (m1 : IdleMonitor) (r : CheckResult),
      Check s.idleMonitor env = some (m1, r) → r.ShouldWarn = true →
      ((checkAndHibernate s env true sendOk hibOk).warningSent = true ↔
        (s.lastNotificationTime = none ∨
          ∃ t, s.lastNotificationTime = some t ∧
            notificationThrottleDuration ≤ env.now - t))) ∧
    (throttleCycle0.shouldWarn = true ∧ throttleCycle1.shouldWarn = true ∧
      throttleCycle2.shouldWarn = true ∧ throttleCycle0.warningSent = true ∧
      throttleCycle1.warningSent = false ∧ throttleCycle2.warningSent = true) := by
  constructor
  · intro s env sendOk hibOk m1 r hchk hwarn
    unfold checkAndHibernate
    rw [hchk]
    simp only [hwarn, if_true]
    cases hl : s.lastNotificationTime with
    | none =>
      simp only [hl]
      cases sendOk <;> simp
    | some t =>
      simp only [hl]
      by_cases hth : notificationThrottleDuration ≤ env.now - t
      · rw [if_pos (by simpa using hth)]
        cases sendOk <;> simp [hth]
      · rw [if_neg (by simpa using hth)]
        simp [hth]
  · refine ⟨by decide, by decide, by decide, by decide, by decide, by decide⟩

/-- C5 witness: at scenario cycle 2 the hypotheses hold concretely and the
throttle equivalence is obtained from the theorem itself. -/
theorem warning_send_throttle_witness :
    (Check throttleCycle0.svc.idleMonitor (warnEnvAt (5 * timeSecond)) =
        some (throttlePair1.1, throttlePair1.2) ∧
      throttlePair1.2.ShouldWarn = true) ∧
    ((checkAndHibernate throttleCycle0.svc (warnEnvAt (5 * timeSecond))
        true true true).warningSent = true ↔
      (throttleCycle0.svc.lastNotificationTime = none ∨
        ∃ t, throttleCycle0.svc.lastNotificationTime = some t ∧
          notificationThrottleDuration ≤ (warnEnvAt (5 * timeSecond)).now - t)) :=
  ⟨⟨by decide, by decide⟩,
    warning_send_throttle.1 throttleCycle0.svc (warnEnvAt (5 * timeSecond))
      true true throttlePair1.1 throttlePair1.2 (by decide) (by decide)⟩

/-! ### C6 -/

theorem sessionRecentlyActive_iff (idleOf : Nat → Option Int)
    (s : SessionInfo) :
    sessionRecentlyActive idleOf s = true ↔
      s.IsDisconnected = false ∧
        ∃ t, idleOf s.SessionId = some t ∧ t < recentActivityThreshold := by
  unfold sessionRecentlyActive
  cases h : idleOf s.SessionId <;> simp [h]

theorem anyRecentActivity_iff (sessions : List SessionInfo)
    (idleOf : Nat → Option Int) :
    anyRecentActivity sessions idleOf = true ↔
      ∃ s ∈ sessions, s.IsDisconnected = false ∧
        ∃ t, idleOf s.SessionId = some t ∧ t < recentActivityThreshold := by
  unfold anyRecentActivity
  rw [List.any_eq_true]
  constructor
  · rintro ⟨s, hs, h⟩
    exact ⟨s, hs, (sessionRecentlyActive_iff _ _).mp h⟩
  · rintro ⟨s, hs, h⟩
    exact ⟨s, hs, (sessionRecentlyActive_iff _ _).mpr h⟩

theorem connected_member_facts (sessions : List SessionInfo) (s : SessionInfo)
    (hs : s ∈ sessions) (hd : s.IsDisconnected = false) :
    sessions.isEmpty = false ∧
      (sessions.all fun x => x.IsDisconnected) = false := by
  constructor
  · cases sessions with
    | nil => cases hs
    | cons a l => rfl
  · cases hall : sessions.all fun x => x.IsDisconnected with
    | false => rfl
    | true =>
      have := List.all_eq_true.mp hall s hs
      rw [hd] at this
      cases this

/-- C6: while the warning FSM is Active, `shouldCancelWarning` is true
exactly when (a) the active condition was no-users and users are present, or
(b) it was all-disconnected and some session reconnected, or (c) it was
inactive-user and some connected session's readable idle duration is under
the 30-second recent-activity threshold; and when it fires, the cancel step
marks the state Canceled, applies the warning-reset (which takes the FSM on
to None), and clears both idle timers and the warning timestamp. -/
theorem warning_cancellation :
    ∀ (m : IdleMonitor) (sessions : List SessionInfo)
      (idleOf : Nat → Option Int),
      m.state.WarningState = WarningStateActive →
      (shouldCancelWarning m sessions (!sessions.isEmpty)
          (sessions.all fun s => s.IsDisconnected) idleOf = true ↔
        (m.state.IdleCondition = IdleConditionNoUsers ∧
          (!sessions.isEmpty) = true) ∨
        (m.state.IdleCondition = IdleConditionAllDisconnected ∧
          (sessions.all fun s => s.IsDisconnected) = false) ∨
        (m.state.IdleCondition = IdleConditionInactiveUser ∧
          ∃ s ∈ sessions, s.IsDisconnected = false ∧
            ∃ t, idleOf s.SessionId = some t ∧ t < recentActivityThreshold)) ∧
      (shouldCancelWarning m sessions (!sessions.isEmpty)
          (sessions.all fun s => s.IsDisconnected) idleOf = true →
        cancelPhase m sessions (!sessions.isEmpty)
            (sessions.all fun s => s.IsDisconnected) idleOf =
          resetWarning { m with state :=
            { m.state with WarningState := WarningStateCanceled } } ∧
        (cancelPhase m sessions (!sessions.isEmpty)
            (sessions.all fun s => s.IsDisconnected) idleOf).state.WarningState =
          WarningStateNone ∧
        (cancelPhase m sessions (!sessions.isEmpty)
            (sessions.all fun s => s.IsDisconnected) idleOf).state.NoUsersIdleSince =
          none ∧
        (cancelPhase m sessions (!sessions.isEmpty)
            (sessions.all fun s => s.IsDisconnected) idleOf).state.AllDisconnectedSince =
          none ∧
        (cancelPhase m sessions (!sessions.isEmpty)
            (sessions.all fun s => s.IsDisconnected) idleOf).state.WarningIssuedAt =
          none) := by
  intro m sessions idleOf hact
  constructor
  · unfold shouldCancelWarning
    rw [if_neg (by simp [hact])]
    cases hcond : m.state.IdleCondition with
    | IdleConditionNone => simp
    | IdleConditionNoUsers => simp
    | IdleConditionAllDisconnected => simp
    | IdleConditionInactiveUser =>
      by_cases hc :
          ((!sessions.isEmpty) && !(sessions.all fun s => s.IsDisconnected)) = true
      · rw [if_pos hc]
        rw [anyRecentActivity_iff]
        simp
      · rw [if_neg hc]
        simp only [Bool.false_eq_true, false_iff]
        intro hdisj
        rcases hdisj with ⟨h, -⟩ | ⟨h, -⟩ | ⟨-, s, hs, hd, -⟩
        · cases h
        · cases h
        · obtain ⟨hne, hall⟩ := connected_member_facts sessions s hs hd
          rw [hne, hall] at hc
          exact hc rfl
  · intro hcw
    unfold cancelPhase
    rw [if_pos hcw]
    exact ⟨rfl, rfl, rfl, rfl, rfl⟩

/-- A monitor in Active warning state for the inactive-user condition. -/
def warnActiveMonitor : IdleMonitor :=
  { throttleMonitor with state := { throttleMonitor.state with
      WarningState := WarningStateActive
      IdleCondition := IdleConditionInactiveUser
      WarningIssuedAt := some 0 } }

/-- The idle readings of the cancellation witness: 10 seconds everywhere. -/
def recentIdleOf : Nat → Option Int := fun _ => some (10 * timeSecond)

/-- The single-session snapshot of the cancellation witness. -/
def oneAlice : List SessionInfo := [sessAlice]

/-- C6 witness: with one connected session 10 seconds idle, the cancellation
characterization holds at the Active inactive-user monitor. -/
theorem warning_cancellation_witness :
    warnActiveMonitor.state.WarningState = WarningStateActive ∧
    ((shouldCancelWarning warnActiveMonitor oneAlice (!oneAlice.isEmpty)
          (oneAlice.all fun s => s.IsDisconnected) recentIdleOf = true ↔
        (warnActiveMonitor.state.IdleCondition = IdleConditionNoUsers ∧
          (!oneAlice.isEmpty) = true) ∨
        (warnActiveMonitor.state.IdleCondition = IdleConditionAllDisconnected ∧
          (oneAlice.all fun s => s.IsDisconnected) = false) ∨
        (warnActiveMonitor.state.IdleCondition = IdleConditionInactiveUser ∧
          ∃ s ∈ oneAlice, s.IsDisconnected = false ∧
            ∃ t, recentIdleOf s.SessionId = some t ∧
              t < recentActivityThreshold)) ∧
      (shouldCancelWarning warnActiveMonitor oneAlice (!oneAlice.isEmpty)
          (oneAlice.all fun s => s.IsDisconnected) recentIdleOf = true →
        cancelPhase warnActiveMonitor oneAlice (!oneAlice.isEmpty)
            (oneAlice.all fun s => s.IsDisconnected) recentIdleOf =
          resetWarning { warnActiveMonitor with state :=
            { warnActiveMonitor.state with
                WarningState := WarningStateCanceled } } ∧
        (cancelPhase warnActiveMonitor oneAlice (!oneAlice.isEmpty)
            (oneAlice.all fun s => s.IsDisconnected)
            recentIdleOf).state.WarningState = WarningStateNone ∧
        (cancelPhase warnActiveMonitor oneAlice (!oneAlice.isEmpty)
            (oneAlice.all fun s => s.IsDisconnected)
            recentIdleOf).state.NoUsersIdleSince = none ∧
        (cancelPhase warnActiveMonitor oneAlice (!oneAlice.isEmpty)
            (oneAlice.all fun s => s.IsDisconnected)
            recentIdleOf).state.AllDisconnectedSince = none ∧
        (cancelPhase warnActiveMonitor oneAlice (!oneAlice.isEmpty)
            (oneAlice.all fun s => s.IsDisconnected)
            recentIdleOf).state.WarningIssuedAt = none)) :=
  ⟨by decide,
    warning_cancellation warnActiveMonitor oneAlice recentIdleOf (by decide)⟩

/-! ### C4 -/

@[simp] theorem markCondition_LastActivityTime (m : IdleMonitor)
    (c : IdleCondition) :
    (markCondition m c).state.LastActivityTime = m.state.LastActivityTime := rfl

@[simp] theorem markCondition_AllDisconnectedSince (m : IdleMonitor)
    (c : IdleCondition) :
    (markCondition m c).state.AllDisconnectedSince =
      m.state.AllDisconnectedSince := rfl

@[simp] theorem markCondition_NoUsersIdleSince (m : IdleMonitor)
    (c : IdleCondition) :
    (markCondition m c).state.NoUsersIdleSince = m.state.NoUsersIdleSince := rfl

@[simp] theorem markCondition_WarningIssuedAt (m : IdleMonitor)
    (c : IdleCondition) :
    (markCondition m c).state.WarningIssuedAt = m.state.WarningIssuedAt := rfl

@[simp] theorem markCondition_WarningState (m : IdleMonitor)
    (c : IdleCondition) :
    (markCondition m c).state.WarningState = m.state.WarningState := rfl

@[simp] theorem startWarning_WarningState (m : IdleMonitor) (now : Int)
    (c : IdleCondition) (reason : String) :
    (startWarning m now c reason).state.WarningState = WarningStateActive := rfl

@[simp] theorem startWarning_WarningIssuedAt (m : IdleMonitor) (now : Int)
    (c : IdleCondition) (reason : String) :
    (startWarning m now c reason).state.WarningIssuedAt = some now := rfl

theorem shouldCancelWarning_empty (m : IdleMonitor)
    (idleOf : Nat → Option Int) :
    shouldCancelWarning m [] false true idleOf = false := by
  unfold shouldCancelWarning
  split
  · rfl
  · cases m.state.IdleCondition <;> simp

theorem decidePhase_Condition (m : IdleMonitor) (now : Int)
    (cond : IdleCondition) (reason : String) :
    (decidePhase m now cond reason).2.Condition = cond := by
  unfold decidePhase
  split
  · rename_i h
    exact h.symm
  · split
    · split
      · rfl
      · split <;> rfl
    · rfl

theorem noUsersPhase_cond (a : CondAcc) (now : Int) (hasUsers : Bool) :
    (noUsersPhase a now hasUsers).cond = a.cond ∨
      ((noUsersPhase a now hasUsers).cond = IdleConditionNoUsers ∧
        hasUsers = false) := by
  unfold noUsersPhase
  split
  · rename_i h
    rw [Bool.not_eq_true'] at h
    split
    · exact Or.inl rfl
    · dsimp only
      split
      · exact Or.inr ⟨rfl, h⟩
      · exact Or.inl rfl
  · exact Or.inl rfl

theorem allDisconnectedPhase_cond (a : CondAcc) (now : Int)
    (hasUsers allDisconnected : Bool) :
    (allDisconnectedPhase a now hasUsers allDisconnected).cond = a.cond ∨
      ((allDisconnectedPhase a now hasUsers allDisconnected).cond =
          IdleConditionAllDisconnected ∧
        allDisconnected = true ∧ hasUsers = true) := by
  unfold allDisconnectedPhase
  split
  · rename_i h
    split
    · exact Or.inl rfl
    · dsimp only
      split
      · exact Or.inr ⟨rfl, h.2.1, h.2.2⟩
      · exact Or.inl rfl
  · split
    · exact Or.inl rfl
    · exact Or.inl rfl

theorem inactivePhase_cond (a : CondAcc) (now : Int)
    (idleOf : Nat → Option Int) (sessions : List SessionInfo)
    (hasUsers allDisconnected : Bool) :
    (inactivePhase a now idleOf sessions hasUsers allDisconnected).cond =
        a.cond ∨
      ((inactivePhase a now idleOf sessions hasUsers allDisconnected).cond =
          IdleConditionInactiveUser ∧
        (hasUsers && !allDisconnected &&
          sessions.any fun s => !s.IsDisconnected) = true) := by
  unfold inactivePhase
  dsimp only
  split
  · rename_i h
    split
    · exact Or.inl rfl
    · split
      · exact Or.inr ⟨rfl, h.2⟩
      · exact Or.inl rfl
  · exact Or.inl rfl

theorem any_connected_of_not_all (sessions : List SessionInfo)
    (h : (sessions.all fun s => s.IsDisconnected) = false) :
    (sessions.any fun s => !s.IsDisconnected) = true := by
  induction sessions with
  | nil => simp at h
  | cons a l ih =>
    simp only [List.all_cons] at h
    simp only [List.any_cons]
    cases ha : a.IsDisconnected with
    | false => simp [ha]
    | true =>
      rw [ha] at h
      simp only [Bool.true_and] at h
      simp [ha, ih h]

/-- C4: (general) one evaluation reports exactly one condition value, and
the snapshot classes behind the three conditions are mutually exclusive —
no-users is only ever reported on an empty snapshot, all-disconnected only
on a nonempty snapshot with every session disconnected, and inactive-user
only when some session is connected — so at most one condition is met per
cycle and the fixed order (no-users, all-disconnected, inactive-user) with
earlier-suppresses-later holds.  (scenario) With an empty snapshot and the
no-users timer past its threshold, the evaluation reports no-users with
immediate hibernation; the outcome is identical for any per-session idle
readings (the inactive-user timers are never consulted) and neither the
last-activity timestamp nor the all-disconnected timer is touched. -/
theorem no_users_priority :
    (∀ (m : IdleMonitor) (now : Int) (idleOf : Nat → Option Int)
        (sessions : List SessionInfo),
      ((evalConditions m now idleOf sessions).2.Condition =
          IdleConditionNoUsers → sessions.isEmpty = true) ∧
      ((evalConditions m now idleOf sessions).2.Condition =
          IdleConditionAllDisconnected →
        sessions.isEmpty = false ∧
          (sessions.all fun s => s.IsDisconnected) = true) ∧
      ((evalConditions m now idleOf sessions).2.Condition =
          IdleConditionInactiveUser →
        (sessions.any fun s => !s.IsDisconnected) = true)) ∧
    (∀ (m : IdleMonitor) (now t0 : Int) (idleOf idleOf' : Nat → Option Int),
      m.state.NoUsersIdleSince = some t0 →
      m.noUsersThreshold ≤ now - t0 →
      (evalConditions m now idleOf []).2.Condition = IdleConditionNoUsers ∧
      (evalConditions m now idleOf []).2.ShouldHibernate = true ∧
      (evalConditions m now idleOf []).2.ShouldWarn = false ∧
      evalConditions m now idleOf [] = evalConditions m now idleOf' [] ∧
      (evalConditions m now idleOf []).1.state.LastActivityTime =
        m.state.LastActivityTime ∧
      (evalConditions m now idleOf []).1.state.AllDisconnectedSince =
        m.state.AllDisconnectedSince) := by
  constructor
  · intro m now idleOf sessions
    have hval : (evalConditions m now idleOf sessions).2.Condition =
        (inactivePhase
          (allDisconnectedPhase
            (noUsersPhase
              ⟨cancelPhase m sessions (!sessions.isEmpty)
                  (sessions.all fun s => s.IsDisconnected) idleOf,
                IdleConditionNone, ""⟩
              now (!sessions.isEmpty))
            now (!sessions.isEmpty) (sessions.all fun s => s.IsDisconnected))
          now idleOf sessions (!sessions.isEmpty)
          (sessions.all fun s => s.IsDisconnected)).cond := by
      unfold evalConditions
      rw [decidePhase_Condition]
    have h1 := noUsersPhase_cond
      ⟨cancelPhase m sessions (!sessions.isEmpty)
          (sessions.all fun s => s.IsDisconnected) idleOf,
        IdleConditionNone, ""⟩ now (!sessions.isEmpty)
    have h2 := allDisconnectedPhase_cond
      (noUsersPhase
        ⟨cancelPhase m sessions (!sessions.isEmpty)
            (sessions.all fun s => s.IsDisconnected) idleOf,
          IdleConditionNone, ""⟩ now (!sessions.isEmpty))
      now (!sessions.isEmpty) (sessions.all fun s => s.IsDisconnected)
    have h3 := inactivePhase_cond
      (allDisconnectedPhase
        (noUsersPhase
          ⟨cancelPhase m sessions (!sessions.isEmpty)
              (sessions.all fun s => s.IsDisconnected) idleOf,
            IdleConditionNone, ""⟩ now (!sessions.isEmpty))
        now (!sessions.isEmpty) (sessions.all fun s => s.IsDisconnected))
      now idleOf sessions (!sessions.isEmpty)
      (sessions.all fun s => s.IsDisconnected)
    rw [hval]
    rcases h3 with h3 | ⟨h3c, h3g⟩
    · rw [h3]
      rcases h2 with h2 | ⟨h2c, h2a, h2u⟩
      · rw [h2]
        rcases h1 with h1 | ⟨h1c, h1u⟩
        · rw [h1]
          refine ⟨fun hx => ?_, fun hx => ?_, fun hx => ?_⟩ <;> cases hx
        · rw [h1c]
          rw [Bool.not_eq_false'] at h1u
          refine ⟨fun _ => h1u, fun hx => ?_, fun hx => ?_⟩ <;> cases hx
      · rw [h2c]
        rw [Bool.not_eq_true'] at h2u
        refine ⟨fun hx => ?_, fun _ => ⟨h2u, h2a⟩, fun hx => ?_⟩ <;> cases hx
    · rw [h3c]
      obtain ⟨hg1, hg2⟩ := Bool.and_eq_true_iff.mp h3g
      refine ⟨fun hx => ?_, fun hx => ?_, fun _ => hg2⟩ <;> cases hx
  · intro m now t0 idleOf idleOf' h1 h2
    have key : ∀ f : Nat → Option Int,
        evalConditions m now f [] =
          (markCondition m IdleConditionNoUsers,
           ⟨IdleConditionNoUsers, false, true, noUsersReason m, 0⟩) := by
      intro f
      unfold evalConditions
      simp only [List.isEmpty_nil, Bool.not_true, List.all_nil]
      rw [show cancelPhase m [] false true f = m by
        unfold cancelPhase; simp [shouldCancelWarning_empty]]
      unfold noUsersPhase
      simp only [Bool.not_false, if_true]
      rw [h1]
      simp only
      rw [if_pos h2]
      unfold allDisconnectedPhase
      simp only
      rw [if_neg (by simp), if_neg (by simp)]
      unfold inactivePhase
      simp only [Bool.false_and, Bool.and_self]
      rw [if_neg (by simp)]
      unfold decidePhase
      rw [if_neg (by simp), if_neg (by simp)]
    rw [key idleOf, key idleOf']
    exact ⟨rfl, rfl, rfl, rfl, rfl, rfl⟩

/-- C4 witness: the no-users-ticking monitor at its 15-minute mark. -/
theorem no_users_priority_witness :
    (noUsersTicking.state.NoUsersIdleSince = some 0 ∧
      noUsersTicking.noUsersThreshold ≤ 15 * timeMinute - 0) ∧
    ((evalConditions noUsersTicking (15 * timeMinute) recentIdleOf
        []).2.Condition = IdleConditionNoUsers ∧
      (evalConditions noUsersTicking (15 * timeMinute) recentIdleOf
        []).2.ShouldHibernate = true ∧
      (evalConditions noUsersTicking (15 * timeMinute) recentIdleOf
        []).2.ShouldWarn = false ∧
      evalConditions noUsersTicking (15 * timeMinute) recentIdleOf [] =
        evalConditions noUsersTicking (15 * timeMinute) (fun _ => none) [] ∧
      (evalConditions noUsersTicking (15 * timeMinute) recentIdleOf
        []).1.state.LastActivityTime = noUsersTicking.state.LastActivityTime ∧
      (evalConditions noUsersTicking (15 * timeMinute) recentIdleOf
        []).1.state.AllDisconnectedSince =
          noUsersTicking.state.AllDisconnectedSince) :=
  ⟨⟨by decide, by decide⟩,
    no_users_priority.2 noUsersTicking (15 * timeMinute) 0 recentIdleOf
      (fun _ => none) (by decide) (by decide)⟩

/-! ### C10 -/

/-- C10: a successful `Check` never sets both flags, and whenever
`ShouldWarn` is set the condition is inactive-user and the remaining time is
strictly positive. -/
theorem check_flags_invariant :
    ∀ (m : IdleMonitor) (env : CheckEnv) (m1 : IdleMonitor) (r : CheckResult),
      Check m env = some (m1, r) →
      ¬(r.ShouldWarn = true ∧ r.ShouldHibernate = true) ∧
      (r.ShouldWarn = true →
        r.Condition = IdleConditionInactiveUser ∧ 0 < r.TimeRemaining) := by
  intro m env m1 r h
  obtain ⟨h1, h2⟩ := check_flags m env m1 r h
  constructor
  · rintro ⟨hw, hh⟩
    have := (h1 hw).1
    rw [this] at hh
    cases hh
  · intro hw
    exact ⟨(h1 hw).2.1, (h1 hw).2.2⟩

/-- C10 witness: at a concrete warning cycle, the invariant holds with
`ShouldWarn = true`. -/
theorem check_flags_invariant_witness :
    (Check throttleCycle0.svc.idleMonitor (warnEnvAt (5 * timeSecond)) =
        some (throttlePair1.1, throttlePair1.2) ∧
      throttlePair1.2.ShouldWarn = true) ∧
    (¬(throttlePair1.2.ShouldWarn = true ∧
        throttlePair1.2.ShouldHibernate = true) ∧
      (throttlePair1.2.ShouldWarn = true →
        throttlePair1.2.Condition = IdleConditionInactiveUser ∧
          0 < throttlePair1.2.TimeRemaining)) :=
  ⟨⟨by decide, by decide⟩,
    check_flags_invariant throttleCycle0.svc.idleMonitor
      (warnEnvAt (5 * timeSecond)) throttlePair1.1 throttlePair1.2 (by decide)⟩

/-! ### C2 -/

theorem decidePhase_inactive (M : IdleMonitor) (now : Int) (reason : String)
    (hwp : 0 < M.warningPeriod) :
    (M.state.WarningIssuedAt = none →
      decidePhase M now IdleConditionInactiveUser reason =
        (startWarning M now IdleConditionInactiveUser reason,
         ⟨IdleConditionInactiveUser, true, false, reason, M.warningPeriod⟩)) ∧
    (∀ w, M.state.WarningIssuedAt = some w →
      (M.warningPeriod ≤ now - w →
        decidePhase M now IdleConditionInactiveUser reason =
          (markCondition M IdleConditionInactiveUser,
           ⟨IdleConditionInactiveUser, false, true, reason, 0⟩)) ∧
      (now - w < M.warningPeriod →
        decidePhase M now IdleConditionInactiveUser reason =
          (markCondition M IdleConditionInactiveUser,
           ⟨IdleConditionInactiveUser, true, false, reason,
             M.warningPeriod - (now - w)⟩))) := by
  unfold decidePhase
  rw [if_neg (by simp), if_pos ⟨rfl, hwp⟩]
  constructor
  · intro h
    simp only [h]
  · intro w h
    simp only [h]
    constructor
    · intro hge
      rw [if_pos hge]
    · intro hlt
      rw [if_neg (by omega)]

/-- C2: when the uptime gate passes, some session is connected, the minimum
per-session idle duration `d` reaches the inactive-user threshold, a nonzero
warning period is configured, and the cancel step does not fire: on first
detection (`WarningIssuedAt = none`) `Check` reports `shouldWarn` with the
full warning period and enters Active recording the issue time; on a later
cycle with the warning issued at `w`, if `now − w` is under the period it
reports `shouldWarn` with period − elapsed, and if elapsed ≥ period
(equality included) it reports `shouldHibernate` with zero remaining. -/
theorem inactive_user_warning_cycle :
    ∀ (m : IdleMonitor) (env : CheckEnv) (sessions : List SessionInfo) (d : Int),
      env.sessions = some sessions →
      uptimeGate (withSessions m sessions) env.now env.systemUptime = none →
      (sessions.any fun s => !s.IsDisconnected) = true →
      minIdleOf sessions env.sessionIdleTime = some d →
      m.inactiveUserThreshold ≤ d →
      0 < m.warningPeriod →
      shouldCancelWarning (withSessions m sessions) sessions
        (!sessions.isEmpty) (sessions.all fun s => s.IsDisconnected)
        env.sessionIdleTime = false →
      ∃ p : IdleMonitor × CheckResult, Check m env = some p ∧
        p.2.Condition = IdleConditionInactiveUser ∧
        (m.state.WarningIssuedAt = none →
          p.2.ShouldWarn = true ∧ p.2.ShouldHibernate = false ∧
          p.2.TimeRemaining = m.warningPeriod ∧
          p.1.state.WarningState = WarningStateActive ∧
          p.1.state.WarningIssuedAt = some env.now) ∧
        (∀ w, m.state.WarningIssuedAt = some w →
          (env.now - w < m.warningPeriod →
            p.2.ShouldWarn = true ∧ p.2.ShouldHibernate = false ∧
            p.2.TimeRemaining = m.warningPeriod - (env.now - w)) ∧
          (m.warningPeriod ≤ env.now - w →
            p.2.ShouldHibernate = true ∧ p.2.ShouldWarn = false ∧
            p.2.TimeRemaining = 0)) := by
  intro m env sessions d hsess hgate hconn hmin hthr hwp hnc
  obtain ⟨s0, hs0, hds0⟩ := List.any_eq_true.mp hconn
  rw [Bool.not_eq_true'] at hds0
  obtain ⟨hne, hall⟩ := connected_member_facts sessions s0 hs0 hds0
  have hred : evalConditions (withSessions m sessions) env.now
      env.sessionIdleTime sessions =
      decidePhase
        { m with state := { m.state with
            CurrentSessions := sessions
            NoUsersIdleSince := none
            AllDisconnectedSince := none
            LastActivityTime := env.now - d } }
        env.now IdleConditionInactiveUser (inactiveUserReason m) := by
    unfold evalConditions
    simp only [hne, hall, Bool.not_false, Bool.not_true]
    rw [show cancelPhase (withSessions m sessions) sessions true false
        env.sessionIdleTime = withSessions m sessions from by
      unfold cancelPhase
      rw [if_neg (by simp [show shouldCancelWarning (withSessions m sessions)
        sessions true false env.sessionIdleTime = false from by
          simpa [hne, hall] using hnc])]]
    unfold noUsersPhase
    simp only [Bool.not_true, Bool.false_eq_true, if_false]
    unfold allDisconnectedPhase
    rw [if_neg (by simp), if_pos (by simp)]
    unfold inactivePhase
    simp only [hconn, Bool.and_self, Bool.not_false, Bool.and_true]
    rw [if_pos (by simp)]
    simp only [withSessions]
    rw [hmin]
    simp only
    rw [if_pos hthr]
    simp [inactiveUserReason]
  set M3 : IdleMonitor :=
    { m with state := { m.state with
        CurrentSessions := sessions
        NoUsersIdleSince := none
        AllDisconnectedSince := none
        LastActivityTime := env.now - d } } with hM3
  have hwp3 : 0 < M3.warningPeriod := hwp
  have hlem := decidePhase_inactive M3 env.now (inactiveUserReason m) hwp3
  refine ⟨decidePhase M3 env.now IdleConditionInactiveUser
    (inactiveUserReason m), ?_, ?_, ?_, ?_⟩
  · unfold Check
    rw [hsess]
    simp only
    rw [hgate, hred]
  · cases hwi : m.state.WarningIssuedAt with
    | none =>
      rw [hlem.1 (show M3.state.WarningIssuedAt = none from hwi)]
    | some w =>
      by_cases hb : M3.warningPeriod ≤ env.now - w
      · rw [(hlem.2 w (show M3.state.WarningIssuedAt = some w from hwi)).1 hb]
      · rw [(hlem.2 w (show M3.state.WarningIssuedAt = some w from hwi)).2
          (by omega)]
  · intro hwi
    rw [hlem.1 (show M3.state.WarningIssuedAt = none from hwi)]
    exact ⟨rfl, rfl, rfl, rfl, rfl⟩
  · intro w hwi
    constructor
    · intro hlt
      rw [(hlem.2 w (show M3.state.WarningIssuedAt = some w from hwi)).2
        (show env.now - w < M3.warningPeriod from hlt)]
      exact ⟨rfl, rfl, rfl⟩
    · intro hge
      rw [(hlem.2 w (show M3.state.WarningIssuedAt = some w from hwi)).1
        (show M3.warningPeriod ≤ env.now - w from hge)]
      exact ⟨rfl, rfl, rfl⟩

/-- The engine output when the warning monitor first detects inactivity. -/
def firstDetectPair : IdleMonitor × CheckResult :=
  (Check throttleMonitor (warnEnvAt 0)).getD
    (throttleMonitor, ⟨IdleConditionNone, false, false, "", 0⟩)

/-- C2 witness: the first-detection hypotheses hold concretely for the
throttle monitor, and the conclusion is produced by the theorem itself. -/
theorem inactive_user_warning_cycle_witness :
    ((warnEnvAt 0).sessions = some [sessAlice] ∧
      uptimeGate (withSessions throttleMonitor [sessAlice]) (warnEnvAt 0).now
        (warnEnvAt 0).systemUptime = none ∧
      ([sessAlice].any fun s => !s.IsDisconnected) = true ∧
      minIdleOf [sessAlice] (warnEnvAt 0).sessionIdleTime =
        some (2 * timeMinute) ∧
      throttleMonitor.inactiveUserThreshold ≤ 2 * timeMinute ∧
      0 < throttleMonitor.warningPeriod ∧
      shouldCancelWarning (withSessions throttleMonitor [sessAlice]) [sessAlice]
        (!([sessAlice] : List SessionInfo).isEmpty)
        ([sessAlice].all fun s => s.IsDisconnected)
        (warnEnvAt 0).sessionIdleTime = false) ∧
    (∃ p : IdleMonitor × CheckResult,
      Check throttleMonitor (warnEnvAt 0) = some p ∧
        p.2.Condition = IdleConditionInactiveUser ∧
        (throttleMonitor.state.WarningIssuedAt = none →
          p.2.ShouldWarn = true ∧ p.2.ShouldHibernate = false ∧
          p.2.TimeRemaining = throttleMonitor.warningPeriod ∧
          p.1.state.WarningState = WarningStateActive ∧
          p.1.state.WarningIssuedAt = some (warnEnvAt 0).now) ∧
        (∀ w, throttleMonitor.state.WarningIssuedAt = some w →
          ((warnEnvAt 0).now - w < throttleMonitor.warningPeriod →
            p.2.ShouldWarn = true ∧ p.2.ShouldHibernate = false ∧
            p.2.TimeRemaining =
              throttleMonitor.warningPeriod - ((warnEnvAt 0).now - w)) ∧
          (throttleMonitor.warningPeriod ≤ (warnEnvAt 0).now - w →
            p.2.ShouldHibernate = true ∧ p.2.ShouldWarn = false ∧
            p.2.TimeRemaining = 0))) :=
  ⟨⟨rfl, by decide, by decide, by decide, by decide, by decide, by decide⟩,
    inactive_user_warning_cycle throttleMonitor (warnEnvAt 0) [sessAlice]
      (2 * timeMinute) rfl (by decide) (by decide) (by decide) (by decide)
      (by decide) (by decide)⟩

end AutoHibernate
